import Mathlib

/-!
lwpb: socket-server RPC service (`src/lwpb/rpc/socket/socket_server.c`)

A shallow embedding of the functions of `socket_server.c`
(`service_register_client`, `service_call`, `service_cancel`,
`service_register_server`, `lwpb_service_socket_server_init`,
`lwpb_service_socket_server_bind`) and the properties of their call protocol.
The connection handler of the wire protocol, which the file does not contain,
is modelled from the specification.

Modelling conventions.

* The collaborators of the dispatcher (buffer pool, client callbacks, server
  call handler) are C functions with side effects.  Their effects are made
  explicit by passing a world state `σ` through every external call; the
  embedding is generic in `σ`, so every sequence of outcomes can be produced.
* Every external call made by `service_call` is recorded, in program order,
  as an `Event` carrying the arguments of the call.
* `void *` values are natural numbers, `NULL` is `0`.  A pointer to a client,
  server or method descriptor that the code dereferences is the structure it
  points to together with its address; where such a pointer may be `NULL`
  (the registration arguments and the two slots of the service) it is an
  `Option`.
* The callbacks do not write the client, server or service structures.
-/

namespace Lwpb

/-! Section: Data model -/

/-- Error codes of the library (`lwpb_err_t`). -/
abbrev lwpb_err_t := Nat

/-- Modelled from the spec: the header defining `lwpb_err_t` is not part of the
sources; `LWPB_ERR_OK` is the success code, every other value is an error. -/
def LWPB_ERR_OK : lwpb_err_t := 0

/-- Untyped pointers (`void *`). -/
abbrev Ptr := Nat

/-- The null pointer. -/
def NULL : Ptr := 0

/-- Status delivered to the completion callback (`done_handler`). -/
inductive lwpb_rpc_status where
  | LWPB_RPC_OK
  | LWPB_RPC_NOT_CONNECTED
  | LWPB_RPC_FAILED
  deriving DecidableEq, Repr

open lwpb_rpc_status

/-- A `const struct lwpb_method_desc *`: its address and the two fields that
`service_call` reads. -/
structure lwpb_method_desc where
  addr : Ptr
  req_desc : Ptr
  res_desc : Ptr
  deriving DecidableEq, Repr

/-- What `lwpb_service_alloc_buf(service, &buf, &len)` leaves behind: its
return value and the contents of the two out-parameters (`buf` starts as
`NULL`, so a call that does not write it leaves `NULL`). -/
structure AllocOutcome where
  ret : lwpb_err_t
  buf : Ptr
  len : Nat
  deriving DecidableEq, Repr

/-- The base service (`super`).  `lwpb_service_alloc_buf` and
`lwpb_service_free_buf` are defined outside `socket_server.c`; they are taken
as parameters of the service. -/
structure lwpb_service (σ : Type) where
  alloc_buf : σ → AllocOutcome × σ
  free_buf : Ptr → σ → σ

/-- A non-null `struct lwpb_client *`.  `request_handler` returns its status and
the value it leaves in `*len`. -/
structure lwpb_client (σ : Type) where
  addr : Ptr
  request_handler :
    Ptr → lwpb_method_desc → Ptr → Ptr → Nat → Ptr → σ → (lwpb_err_t × Nat) × σ
  response_handler :
    Ptr → lwpb_method_desc → Ptr → Ptr → Nat → Ptr → σ → lwpb_err_t × σ
  done_handler : Ptr → lwpb_method_desc → lwpb_rpc_status → Ptr → σ → σ
  arg : Ptr

/-- A non-null `struct lwpb_server *`.  `call_handler` returns its status and the
value it leaves in `*res_len`. -/
structure lwpb_server (σ : Type) where
  addr : Ptr
  call_handler :
    Ptr → lwpb_method_desc → Ptr → Ptr → Nat → Ptr → Ptr → Nat → Ptr → σ →
      (lwpb_err_t × Nat) × σ
  arg : Ptr

/-- The socket-server service: the base service and the two registration slots
(`none` is `NULL`). -/
structure lwpb_service_socket_server (σ : Type) where
  super : lwpb_service σ
  client : Option (lwpb_client σ)
  server : Option (lwpb_server σ)

/-- External calls made by the service, with their arguments. -/
inductive Event where
  /-- `lwpb_service_alloc_buf` returned with this outcome. -/
  | alloc_buf (out : AllocOutcome)
  /-- `client->request_handler(client, method_desc, req_desc, buf, &len, arg)`;
  `len` is the value of `*len` on entry. -/
  | request_handler (client : Ptr) (method_desc : lwpb_method_desc) (req_desc : Ptr)
      (buf : Ptr) (len : Nat) (arg : Ptr)
  /-- `server->call_handler(server, method_desc, req_desc, req_buf, req_len,
  res_desc, res_buf, &res_len, arg)`; `res_len` is the value on entry. -/
  | call_handler (server : Ptr) (method_desc : lwpb_method_desc) (req_desc : Ptr)
      (req_buf : Ptr) (req_len : Nat) (res_desc : Ptr) (res_buf : Ptr) (res_len : Nat)
      (arg : Ptr)
  /-- `client->response_handler(client, method_desc, res_desc, buf, len, arg)`. -/
  | response_handler (client : Ptr) (method_desc : lwpb_method_desc) (res_desc : Ptr)
      (buf : Ptr) (len : Nat) (arg : Ptr)
  /-- `client->done_handler(client, method_desc, status, arg)`. -/
  | done_handler (client : Ptr) (method_desc : lwpb_method_desc)
      (status : lwpb_rpc_status) (arg : Ptr)
  /-- `lwpb_service_free_buf(service, buf)`. -/
  | free_buf (buf : Ptr)
  deriving DecidableEq, Repr

/-- Result of running `service_call`: return value, events in program order,
the service structure and the world after the call. -/
structure CallResult (σ : Type) where
  ret : lwpb_err_t
  trace : List Event
  service : lwpb_service_socket_server σ
  world : σ

/-! Section: The service functions -/

section Service

variable {σ : Type}

/-- Modelled from the spec: the assertion `LWPB_ASSERT(cond, msg)` is defined
outside the sources; a failed assertion is fatal (`none`), a passed one lets the
function continue. -/
def LWPB_ASSERT (cond : Bool) : Option Unit :=
  if cond then some () else none

/-- `service_register_client`: asserts that the client slot is `NULL`, then
stores the pointer. -/
def service_register_client (service : lwpb_service_socket_server σ)
    (client : Option (lwpb_client σ)) : Option (lwpb_service_socket_server σ) :=
  match LWPB_ASSERT service.client.isNone with
  | none => none
  | some _ => some ⟨service.super, client, service.server⟩

/-- `service_register_server`: asserts that the server slot is `NULL`, then
stores the pointer. -/
def service_register_server (service : lwpb_service_socket_server σ)
    (server : Option (lwpb_server σ)) : Option (lwpb_service_socket_server σ) :=
  match LWPB_ASSERT service.server.isNone with
  | none => none
  | some _ => some ⟨service.super, service.client, server⟩

/-- The label `out:` of `service_call`: free the buffers that are not `NULL`,
request buffer first, and return `ret`. -/
def service_call_out (service : lwpb_service_socket_server σ) (ret : lwpb_err_t)
    (trace : List Event) (req_buf res_buf : Ptr) (w : σ) : CallResult σ :=
  let s1 : List Event × σ :=
    if req_buf ≠ NULL then
      (trace ++ [Event.free_buf req_buf], service.super.free_buf req_buf w)
    else (trace, w)
  let s2 : List Event × σ :=
    if res_buf ≠ NULL then
      (s1.1 ++ [Event.free_buf res_buf], service.super.free_buf res_buf s1.2)
    else s1
  ⟨ret, s2.1, service, s2.2⟩

/-- `service_call`. -/
def service_call (service : lwpb_service_socket_server σ) (client : lwpb_client σ)
    (method_desc : lwpb_method_desc) (w : σ) : CallResult σ :=
  -- ret = lwpb_service_alloc_buf(service, &req_buf, &req_len)
  let a1 := service.super.alloc_buf w
  let req_buf := a1.1.buf
  let t1 := [Event.alloc_buf a1.1]
  if a1.1.ret ≠ LWPB_ERR_OK then
    service_call_out service a1.1.ret t1 req_buf NULL a1.2
  else
    -- ret = lwpb_service_alloc_buf(service, &res_buf, &res_len)
    let a2 := service.super.alloc_buf a1.2
    let res_buf := a2.1.buf
    let t2 := t1 ++ [Event.alloc_buf a2.1]
    if a2.1.ret ≠ LWPB_ERR_OK then
      service_call_out service a2.1.ret t2 req_buf res_buf a2.2
    else
      -- ret = client->request_handler(..., req_buf, &req_len, client->arg)
      let e := client.request_handler client.addr method_desc method_desc.req_desc
        req_buf a1.1.len client.arg a2.2
      let req_len := e.1.2
      let t3 := t2 ++ [Event.request_handler client.addr method_desc
        method_desc.req_desc req_buf a1.1.len client.arg]
      if e.1.1 ≠ LWPB_ERR_OK then
        service_call_out service e.1.1 t3 req_buf res_buf e.2
      else
        match service.server with
        | none =>
          -- if (!socket_server->server)
          let w4 := client.done_handler client.addr method_desc
            LWPB_RPC_NOT_CONNECTED client.arg e.2
          service_call_out service e.1.1
            (t3 ++ [Event.done_handler client.addr method_desc
              LWPB_RPC_NOT_CONNECTED client.arg])
            req_buf res_buf w4
        | some server =>
          -- ret = socket_server->server->call_handler(...)
          let c := server.call_handler server.addr method_desc method_desc.req_desc
            req_buf req_len method_desc.res_desc res_buf a2.1.len server.arg e.2
          let res_len := c.1.2
          let t4 := t3 ++ [Event.call_handler server.addr method_desc
            method_desc.req_desc req_buf req_len method_desc.res_desc res_buf
            a2.1.len server.arg]
          if c.1.1 ≠ LWPB_ERR_OK then
            let w5 := client.done_handler client.addr method_desc
              LWPB_RPC_FAILED client.arg c.2
            service_call_out service c.1.1
              (t4 ++ [Event.done_handler client.addr method_desc
                LWPB_RPC_FAILED client.arg])
              req_buf res_buf w5
          else
            -- ret = client->response_handler(..., res_buf, res_len, client->arg)
            let d := client.response_handler client.addr method_desc
              method_desc.res_desc res_buf res_len client.arg c.2
            let w6 := client.done_handler client.addr method_desc
              LWPB_RPC_OK client.arg d.2
            service_call_out service d.1
              (t4 ++ [Event.response_handler client.addr method_desc
                  method_desc.res_desc res_buf res_len client.arg,
                Event.done_handler client.addr method_desc LWPB_RPC_OK client.arg])
              req_buf res_buf w6

/-- `service_cancel`: the body is empty; the function returns nothing.  The
result lists the events, the service structure and the world after the call. -/
def service_cancel (service : lwpb_service_socket_server σ) (_client : lwpb_client σ)
    (w : σ) : List Event × lwpb_service_socket_server σ × σ :=
  ([], service, w)

/-! Section: Observations on traces and on the steps of a call -/

/-- Statuses delivered to the completion callback, in order. -/
def completions : List Event → List lwpb_rpc_status
  | [] => []
  | Event.done_handler _ _ status _ :: t => status :: completions t
  | _ :: t => completions t

/-- Buffers passed to `lwpb_service_free_buf`, in order. -/
def released : List Event → List Ptr
  | [] => []
  | Event.free_buf buf :: t => buf :: released t
  | _ :: t => released t

/-- Buffers handed out by the allocations that returned `LWPB_ERR_OK`, in order. -/
def allocated : List Event → List Ptr
  | [] => []
  | Event.alloc_buf out :: t =>
    if out.ret = LWPB_ERR_OK then out.buf :: allocated t else allocated t
  | _ :: t => allocated t

/-- Number of invocations of the request encoder. -/
def request_handler_calls : List Event → Nat
  | [] => 0
  | Event.request_handler _ _ _ _ _ _ :: t => request_handler_calls t + 1
  | _ :: t => request_handler_calls t

/-- Number of invocations of a server call handler. -/
def call_handler_calls : List Event → Nat
  | [] => 0
  | Event.call_handler _ _ _ _ _ _ _ _ _ :: t => call_handler_calls t + 1
  | _ :: t => call_handler_calls t

/-- Number of invocations of the response decoder. -/
def response_handler_calls : List Event → Nat
  | [] => 0
  | Event.response_handler _ _ _ _ _ _ :: t => response_handler_calls t + 1
  | _ :: t => response_handler_calls t

/-- The allocation reported success and handed out a buffer. -/
def AllocOutcome.succeeded (a : AllocOutcome) : Prop :=
  a.ret = LWPB_ERR_OK ∧ a.buf ≠ NULL

/-- The allocation reported the error `e` and handed out no buffer. -/
def AllocOutcome.failed (a : AllocOutcome) (e : lwpb_err_t) : Prop :=
  a.ret = e ∧ e ≠ LWPB_ERR_OK ∧ a.buf = NULL

instance (a : AllocOutcome) : Decidable a.succeeded := by
  unfold AllocOutcome.succeeded; infer_instance

instance (a : AllocOutcome) (e : lwpb_err_t) : Decidable (a.failed e) := by
  unfold AllocOutcome.failed; infer_instance

/-- Outcome of the first allocation of a call (request buffer). -/
def alloc_req (service : lwpb_service_socket_server σ) (w : σ) : AllocOutcome × σ :=
  service.super.alloc_buf w

/-- Outcome of the second allocation of a call (response buffer), made in the
world left by the first. -/
def alloc_res (service : lwpb_service_socket_server σ) (w : σ) : AllocOutcome × σ :=
  service.super.alloc_buf (alloc_req service w).2

/-- Outcome of the request encoder of a call: it receives the request buffer and
the length written by the first allocation, in the world left by the second. -/
def encode (service : lwpb_service_socket_server σ) (client : lwpb_client σ)
    (method_desc : lwpb_method_desc) (w : σ) : (lwpb_err_t × Nat) × σ :=
  client.request_handler client.addr method_desc method_desc.req_desc
    (alloc_req service w).1.buf (alloc_req service w).1.len client.arg
    (alloc_res service w).2

/-- Outcome of the call handler of `server` in a call: it receives the request
buffer with the length left by the encoder, and the response buffer with the
length written by the second allocation. -/
def invoke (service : lwpb_service_socket_server σ) (server : lwpb_server σ)
    (client : lwpb_client σ) (method_desc : lwpb_method_desc) (w : σ) :
    (lwpb_err_t × Nat) × σ :=
  server.call_handler server.addr method_desc method_desc.req_desc
    (alloc_req service w).1.buf (encode service client method_desc w).1.2
    method_desc.res_desc (alloc_res service w).1.buf (alloc_res service w).1.len
    server.arg (encode service client method_desc w).2

/-- Outcome of the response decoder in a call served by `server`: it receives
the response buffer with the length left by the call handler. -/
def decode (service : lwpb_service_socket_server σ) (server : lwpb_server σ)
    (client : lwpb_client σ) (method_desc : lwpb_method_desc) (w : σ) :
    lwpb_err_t × σ :=
  client.response_handler client.addr method_desc method_desc.res_desc
    (alloc_res service w).1.buf (invoke service server client method_desc w).1.2
    client.arg (invoke service server client method_desc w).2

/-- Contract of the buffer pool: an allocation reports `LWPB_ERR_OK` exactly
when it hands out a buffer. -/
def AllocOutcome.wf (a : AllocOutcome) : Prop :=
  a.ret = LWPB_ERR_OK ↔ a.buf ≠ NULL

instance (a : AllocOutcome) : Decidable a.wf := by
  unfold AllocOutcome.wf; infer_instance

/-- A finite sequence of `service_call` invocations, each with its own
arguments (the same service throughout, or a service whose slots were changed
between two calls), every call starting in the world left by the previous one.
The result lists the outcome of every call, in order. -/
def service_call_seq :
    List (lwpb_service_socket_server σ × lwpb_client σ × lwpb_method_desc) → σ →
      List (CallResult σ)
  | [], _ => []
  | (service, client, method_desc) :: rest, w =>
    service_call service client method_desc w
      :: service_call_seq rest (service_call service client method_desc w).world

/-- Events of a sequence of calls, in order. -/
def seq_trace : List (CallResult σ) → List Event
  | [] => []
  | r :: rest => r.trace ++ seq_trace rest

/-- `lwpb_service_socket_server_init`.  `lwpb_service_init` is defined outside
`socket_server.c`; its effect on the base service is the parameter
`lwpb_service_init`. -/
def lwpb_service_socket_server_init (lwpb_service_init : lwpb_service σ → lwpb_service σ)
    (service_socket_server : lwpb_service_socket_server σ) :
    lwpb_service_socket_server σ :=
  ⟨lwpb_service_init service_socket_server.super, none, none⟩

/-- A registration request: `register_client` or `register_server` with its
pointer argument (`none` is `NULL`). -/
inductive Registration (σ : Type) where
  | client (c : Option (lwpb_client σ))
  | server (s : Option (lwpb_server σ))

/-- The request is a `register_client`. -/
def Registration.is_client : Registration σ → Bool
  | Registration.client _ => true
  | Registration.server _ => false

/-- The request is a `register_server`. -/
def Registration.is_server : Registration σ → Bool
  | Registration.client _ => false
  | Registration.server _ => true

/-- The pointer argument of the request is not `NULL`. -/
def Registration.nonnull : Registration σ → Bool
  | Registration.client c => c.isSome
  | Registration.server s => s.isSome

/-- Dispatch of a registration request to the service function. -/
def register (service : lwpb_service_socket_server σ) :
    Registration σ → Option (lwpb_service_socket_server σ)
  | Registration.client c => service_register_client service c
  | Registration.server s => service_register_server service s

/-- A sequence of registration requests on one service.  The result lists the
requests that completed without a fatal assertion failure, and the final
service structure; a request that fails its assertion stores nothing, and the
remaining requests are still examined. -/
def register_seq (service : lwpb_service_socket_server σ) :
    List (Registration σ) → List (Registration σ) × lwpb_service_socket_server σ
  | [] => ([], service)
  | op :: rest =>
    match register service op with
    | some service1 => (op :: (register_seq service1 rest).1, (register_seq service1 rest).2)
    | none => register_seq service rest

/-- The `call_handler` events of a trace. -/
def call_handler_events : List Event → List Event
  | [] => []
  | Event.call_handler a b c d e f g h i :: t =>
    Event.call_handler a b c d e f g h i :: call_handler_events t
  | _ :: t => call_handler_events t

/-! Section: Example collaborators -/

/-- A buffer pool driven by a script held in the world: every allocation takes
the next entry of the script and hands it out as the buffer; the entry `NULL`,
or an exhausted script, makes the allocation fail with error `3`. -/
def script_pool : lwpb_service (List Ptr) :=
  ⟨fun w =>
      match w with
      | [] => (⟨3, NULL, 0⟩, [])
      | b :: rest => (if b = NULL then ⟨3, NULL, 0⟩ else ⟨LWPB_ERR_OK, b, 64⟩, rest),
    fun _ w => w⟩

/-- A client whose encoder returns `enc` and writes length `5`, and whose decoder
returns `dec`. -/
def example_client (enc dec : lwpb_err_t) : lwpb_client (List Ptr) :=
  ⟨100, fun _ _ _ _ _ _ w => ((enc, 5), w), fun _ _ _ _ _ _ w => (dec, w),
    fun _ _ _ _ w => w, 7⟩

/-- A server whose call handler returns `ret` and answers with the request
length. -/
def example_server (ret : lwpb_err_t) : lwpb_server (List Ptr) :=
  ⟨200, fun _ _ _ _ req_len _ _ _ _ w => ((ret, req_len), w), 9⟩

/-- A method descriptor. -/
def example_method : lwpb_method_desc := ⟨300, 301, 302⟩

/-- A script of two successful allocations. -/
def two_buffers : List Ptr := [1000, 2000]

/-- A service over `script_pool` with the given server slot and no client. -/
def example_service (server : Option (lwpb_server (List Ptr))) :
    lwpb_service_socket_server (List Ptr) :=
  ⟨script_pool, none, server⟩

/-- Argument of the first `register_client` request of a sequence. -/
def first_client : List (Registration σ) → Option (lwpb_client σ)
  | [] => none
  | Registration.client c :: _ => c
  | Registration.server _ :: rest => first_client rest

/-- Argument of the first `register_server` request of a sequence. -/
def first_server : List (Registration σ) → Option (lwpb_server σ)
  | [] => none
  | Registration.server s :: _ => s
  | Registration.client _ :: rest => first_server rest

/-- Three calls on the example pool: no server bound, a server whose handler
fails, a server that succeeds. -/
def example_calls :
    List (lwpb_service_socket_server (List Ptr) × lwpb_client (List Ptr)
      × lwpb_method_desc) :=
  [(example_service none, example_client LWPB_ERR_OK LWPB_ERR_OK, example_method),
   (example_service (some (example_server 4)), example_client LWPB_ERR_OK LWPB_ERR_OK,
     example_method),
   (example_service (some (example_server LWPB_ERR_OK)), example_client LWPB_ERR_OK 6,
     example_method)]

/-! Section: Transport binder -/

/-- Address families named in the `hints` of `getaddrinfo`. -/
inductive AddrFamily where
  | AF_UNSPEC
  | AF_INET
  | AF_INET6
  deriving DecidableEq, Repr

/-- Socket types named in the `hints` of `getaddrinfo`. -/
inductive SockType where
  | SOCK_STREAM
  | SOCK_DGRAM
  deriving DecidableEq, Repr

/-- The fields of `struct addrinfo hints` that the code sets after the `memset`;
`ai_passive` is the flag `AI_PASSIVE` of `ai_flags`. -/
structure addrinfo_hints where
  ai_family : AddrFamily
  ai_socktype : SockType
  ai_passive : Bool
  deriving DecidableEq, Repr

/-- External calls made by `lwpb_service_socket_server_bind`. -/
inductive BindEvent where
  /-- `getaddrinfo(host, portstr, &hints, &addr)`; `none` is a `NULL` host. -/
  | getaddrinfo (host : Option (List Char)) (portstr : List Char)
      (hints : addrinfo_hints)
  /-- `LWPB_ERR("getaddrinfo error: %s\n", gai_strerror(status))`. -/
  | LWPB_ERR (status : Int)
  deriving DecidableEq, Repr

/-- Result of running `lwpb_service_socket_server_bind`.  `ret` is the value of
the `return` statement that ends the run, `none` when the closing brace of the
function is reached without one. -/
structure BindResult (σ : Type) where
  ret : Option lwpb_err_t
  events : List BindEvent
  service : lwpb_service_socket_server σ

/-- `lwpb_service_socket_server_bind`.  The resolver `getaddrinfo` is a
parameter: it returns its status and the list of candidate addresses it leaves
in `addr`.  `port` is a `uint16_t`. -/
def lwpb_service_socket_server_bind
    (getaddrinfo : Option (List Char) → List Char → addrinfo_hints → Int × List Nat)
    (service : lwpb_service_socket_server σ) (host : Option (List Char)) (port : Nat) :
    BindResult σ :=
  let hints : addrinfo_hints := ⟨AddrFamily.AF_UNSPEC, SockType.SOCK_STREAM, true⟩
  -- snprintf(portstr, sizeof(portstr), "%d", port)
  let portstr := Nat.toDigits 10 (port % 65536)
  let status := (getaddrinfo host portstr hints).1
  if status ≠ 0 then
    ⟨none, [BindEvent.getaddrinfo host portstr hints, BindEvent.LWPB_ERR status], service⟩
  else
    ⟨none, [BindEvent.getaddrinfo host portstr hints], service⟩

/-- A resolver that fails with status `-2` on every name. -/
def failing_resolver : Option (List Char) → List Char → addrinfo_hints → Int × List Nat :=
  fun _ _ _ => (-2, [])

/-- A resolver that succeeds on every name with two candidate addresses. -/
def two_candidate_resolver :
    Option (List Char) → List Char → addrinfo_hints → Int × List Nat :=
  fun _ _ _ => (0, [4, 6])

/-! Section: Steps of a call -/

/-- The fallible steps of a call: the two allocations, the request encoder, the
server call handler, the response decoder. -/
inductive Step where
  | alloc
  | encode
  | call
  | decode
  deriving DecidableEq, Repr

/-- The step an event belongs to; completions and releases are not steps. -/
def step_of_event : Event → Option Step
  | Event.alloc_buf _ => some Step.alloc
  | Event.request_handler _ _ _ _ _ _ => some Step.encode
  | Event.call_handler _ _ _ _ _ _ _ _ _ => some Step.call
  | Event.response_handler _ _ _ _ _ _ => some Step.decode
  | Event.done_handler _ _ _ _ => none
  | Event.free_buf _ => none

/-- The steps executed in a trace, in order. -/
def steps_of_trace : List Event → List Step
  | [] => []
  | ev :: t =>
    match step_of_event ev with
    | some st => st :: steps_of_trace t
    | none => steps_of_trace t

/-- The steps of a call in program order: request allocation, response
allocation, encoder and, when a server is bound, call handler and decoder. -/
def step_order (service : lwpb_service_socket_server σ) : List Step :=
  [Step.alloc, Step.alloc, Step.encode]
    ++ (match service.server with
        | none => []
        | some _ => [Step.call, Step.decode])

/-- The status each step of `step_order` returns when it is run after all the
steps before it. -/
def step_results (service : lwpb_service_socket_server σ) (client : lwpb_client σ)
    (method_desc : lwpb_method_desc) (w : σ) : List lwpb_err_t :=
  [(alloc_req service w).1.ret, (alloc_res service w).1.ret,
    (encode service client method_desc w).1.1]
    ++ (match service.server with
        | none => []
        | some server =>
          [(invoke service server client method_desc w).1.1,
            (decode service server client method_desc w).1])

/-- The status of the first step that fails, `LWPB_ERR_OK` when none does. -/
def first_failure : List lwpb_err_t → lwpb_err_t
  | [] => LWPB_ERR_OK
  | r :: rest => if r ≠ LWPB_ERR_OK then r else first_failure rest

/-- The number of steps run when the run stops at the first step that fails. -/
def steps_run : List lwpb_err_t → Nat
  | [] => 0
  | r :: rest => if r ≠ LWPB_ERR_OK then 1 else steps_run rest + 1

/-- The event is not a client callback, or it is a client callback invoked on
the client at `addr` with the context value `arg`. -/
def Event.to_client (addr arg : Ptr) : Event → Bool
  | Event.request_handler c _ _ _ _ a => c = addr ∧ a = arg
  | Event.response_handler c _ _ _ _ a => c = addr ∧ a = arg
  | Event.done_handler c _ _ a => c = addr ∧ a = arg
  | _ => true

/-! Section: Connection handler and wire framing -/

/-- Modelled from the spec: the request frame of the wire format,
`[method id][payload length][payload bytes]`.  The connection handler and the
framing are not part of `socket_server.c`. -/
structure RequestFrame where
  method_id : Nat
  len : Nat
  payload : List Nat
  deriving DecidableEq, Repr

/-- Modelled from the spec: the response frame of the wire format,
`[status code][payload length][payload bytes]`. -/
structure ResponseFrame where
  status : lwpb_rpc_status
  len : Nat
  payload : List Nat
  deriving DecidableEq, Repr

/-- Modelled from the spec: what the connection handler does with one frame: it
writes a response frame back on the connection, or it closes the connection
with a framing error, or it gives up on a local resource error. -/
inductive FrameOutcome where
  | response (frame : ResponseFrame)
  | framing_error
  | resource_error (e : lwpb_err_t)
  deriving DecidableEq, Repr

/-- Modelled from the spec: the bytes of a CallBuffer.  `load buf n` reads the
first `n` bytes of the buffer at `buf`, `store buf bytes` writes `bytes` at its
start. -/
structure BufferAccess (σ : Type) where
  load : Ptr → Nat → σ → List Nat
  store : Ptr → List Nat → σ → σ

/-- Modelled from the spec: the connection handler applied to one complete
frame (section 4.4; no connection handler is part of `socket_server.c`).  The
method id is resolved against the method-descriptor table; the request and the
response CallBuffer are allocated; the payload length is decoded and checked
against the maximum message size; the call handler of the locally bound server
is invoked directly on the payload; the response frame is written back; both
buffers are released.  An unknown method id, a length above the maximum and a
payload that does not have the declared length are framing errors.  The spec
does not say what is written back when no server is bound or when the call
handler fails: the frame then carries the status `NOT_CONNECTED`, respectively
`FAILED`, and no payload. -/
def connection_handle_frame (mem : BufferAccess σ)
    (method_table : Nat → Option lwpb_method_desc) (max_message_size : Nat)
    (service : lwpb_service_socket_server σ) (frame : RequestFrame) (w : σ) :
    FrameOutcome × List Event × σ :=
  match method_table frame.method_id with
  | none => (FrameOutcome.framing_error, [], w)
  | some method_desc =>
    let a1 := service.super.alloc_buf w
    if a1.1.ret ≠ LWPB_ERR_OK then
      let r := service_call_out service a1.1.ret [Event.alloc_buf a1.1] a1.1.buf NULL a1.2
      (FrameOutcome.resource_error a1.1.ret, r.trace, r.world)
    else
      let a2 := service.super.alloc_buf a1.2
      let t2 := [Event.alloc_buf a1.1, Event.alloc_buf a2.1]
      if a2.1.ret ≠ LWPB_ERR_OK then
        let r := service_call_out service a2.1.ret t2 a1.1.buf a2.1.buf a2.2
        (FrameOutcome.resource_error a2.1.ret, r.trace, r.world)
      else if max_message_size < frame.len ∨ frame.payload.length ≠ frame.len then
        let r := service_call_out service LWPB_ERR_OK t2 a1.1.buf a2.1.buf a2.2
        (FrameOutcome.framing_error, r.trace, r.world)
      else
        match service.server with
        | none =>
          let r := service_call_out service LWPB_ERR_OK t2 a1.1.buf a2.1.buf a2.2
          (FrameOutcome.response ⟨LWPB_RPC_NOT_CONNECTED, 0, []⟩, r.trace, r.world)
        | some server =>
          let w3 := mem.store a1.1.buf frame.payload a2.2
          let c := server.call_handler server.addr method_desc method_desc.req_desc
            a1.1.buf frame.len method_desc.res_desc a2.1.buf a2.1.len server.arg w3
          let t3 := t2 ++ [Event.call_handler server.addr method_desc
            method_desc.req_desc a1.1.buf frame.len method_desc.res_desc a2.1.buf
            a2.1.len server.arg]
          if c.1.1 ≠ LWPB_ERR_OK then
            let r := service_call_out service c.1.1 t3 a1.1.buf a2.1.buf c.2
            (FrameOutcome.response ⟨LWPB_RPC_FAILED, 0, []⟩, r.trace, r.world)
          else
            let r := service_call_out service c.1.1 t3 a1.1.buf a2.1.buf c.2
            (FrameOutcome.response ⟨LWPB_RPC_OK, c.1.2, mem.load a2.1.buf c.1.2 c.2⟩,
              r.trace, r.world)

/-- A server whose call handler echoes its input: it copies the `req_len` bytes
of the request buffer into the response buffer, leaves `req_len` in `*res_len`
and returns `LWPB_ERR_OK`. -/
def echo_server (mem : BufferAccess σ) (addr arg : Ptr) : lwpb_server σ :=
  ⟨addr, fun _ _ _ req_buf req_len _ res_buf _ _ w =>
    ((LWPB_ERR_OK, req_len), mem.store res_buf (mem.load req_buf req_len w) w), arg⟩

/-- Example world for the connection handler: the script of `script_pool` and
the contents of the buffers. -/
abbrev FrameWorld := List Ptr × (Ptr → List Nat)

/-- The pool `script_pool` in a `FrameWorld`. -/
def frame_pool : lwpb_service FrameWorld :=
  ⟨fun w => ((script_pool.alloc_buf w.1).1, ((script_pool.alloc_buf w.1).2, w.2)),
    fun _ w => w⟩

/-- Buffer contents of a `FrameWorld`. -/
def frame_memory : BufferAccess FrameWorld :=
  ⟨fun buf n w => (w.2 buf).take n,
    fun buf bytes w => (w.1, fun q => if q = buf then bytes else w.2 q)⟩

/-- A method-descriptor table that knows the method id `7` only. -/
def example_method_table : Nat → Option lwpb_method_desc :=
  fun id => if id = 7 then some example_method else none

end Service

/-! Section: Properties of `service_call` -/

section Call

variable {σ : Type}

/-- C1: with no server bound, when both allocations and the request encoder
succeed, `service_call` delivers `NOT_CONNECTED` to the completion callback
exactly once, invokes neither a server call handler nor the response decoder,
releases the request buffer and the response buffer once each, and returns
`LWPB_ERR_OK`. -/
theorem service_call_no_server (service : lwpb_service_socket_server σ)
    (client : lwpb_client σ) (method_desc : lwpb_method_desc) (w : σ)
    (hserver : service.server = none)
    (hreq : (alloc_req service w).1.succeeded)
    (hres : (alloc_res service w).1.succeeded)
    (henc : (encode service client method_desc w).1.1 = LWPB_ERR_OK) :
    completions (service_call service client method_desc w).trace
        = [LWPB_RPC_NOT_CONNECTED]
      ∧ call_handler_calls (service_call service client method_desc w).trace = 0
      ∧ response_handler_calls (service_call service client method_desc w).trace = 0
      ∧ released (service_call service client method_desc w).trace
        = [(alloc_req service w).1.buf, (alloc_res service w).1.buf]
      ∧ (service_call service client method_desc w).ret = LWPB_ERR_OK := by
  obtain ⟨h1, h1b⟩ := hreq
  obtain ⟨h2, h2b⟩ := hres
  simp only [alloc_req, alloc_res, encode] at h1 h1b h2 h2b henc ⊢
  simp [service_call, service_call_out, hserver, h1, h1b, h2, h2b, henc,
    completions, released, call_handler_calls, response_handler_calls]

theorem service_call_no_server_witness :
    completions (service_call (example_service none)
        (example_client LWPB_ERR_OK LWPB_ERR_OK) example_method two_buffers).trace
        = [LWPB_RPC_NOT_CONNECTED]
      ∧ call_handler_calls (service_call (example_service none)
        (example_client LWPB_ERR_OK LWPB_ERR_OK) example_method two_buffers).trace = 0
      ∧ response_handler_calls (service_call (example_service none)
        (example_client LWPB_ERR_OK LWPB_ERR_OK) example_method two_buffers).trace = 0
      ∧ released (service_call (example_service none)
        (example_client LWPB_ERR_OK LWPB_ERR_OK) example_method two_buffers).trace
        = [1000, 2000]
      ∧ (service_call (example_service none)
        (example_client LWPB_ERR_OK LWPB_ERR_OK) example_method two_buffers).ret
        = LWPB_ERR_OK :=
  service_call_no_server (example_service none) (example_client LWPB_ERR_OK LWPB_ERR_OK)
    example_method two_buffers rfl ⟨rfl, by decide⟩ ⟨rfl, by decide⟩ rfl

/-- C2: whether or not a server is bound, when both allocations succeed and the
request encoder returns an error `e`, `service_call` invokes no server call
handler, no completion callback and no response decoder, releases the request
buffer and the response buffer once each, and returns `e`. -/
theorem service_call_encoder_error (service : lwpb_service_socket_server σ)
    (client : lwpb_client σ) (method_desc : lwpb_method_desc) (w : σ) (e : lwpb_err_t)
    (hreq : (alloc_req service w).1.succeeded)
    (hres : (alloc_res service w).1.succeeded)
    (henc : (encode service client method_desc w).1.1 = e)
    (he : e ≠ LWPB_ERR_OK) :
    call_handler_calls (service_call service client method_desc w).trace = 0
      ∧ completions (service_call service client method_desc w).trace = []
      ∧ response_handler_calls (service_call service client method_desc w).trace = 0
      ∧ released (service_call service client method_desc w).trace
        = [(alloc_req service w).1.buf, (alloc_res service w).1.buf]
      ∧ (service_call service client method_desc w).ret = e := by
  obtain ⟨h1, h1b⟩ := hreq
  obtain ⟨h2, h2b⟩ := hres
  subst henc
  simp only [alloc_req, alloc_res, encode] at h1 h1b h2 h2b he ⊢
  simp [service_call, service_call_out, h1, h1b, h2, h2b, he,
    completions, released, call_handler_calls, response_handler_calls]

theorem service_call_encoder_error_witness :
    call_handler_calls (service_call (example_service (some (example_server LWPB_ERR_OK)))
        (example_client 5 LWPB_ERR_OK) example_method two_buffers).trace = 0
      ∧ completions (service_call (example_service (some (example_server LWPB_ERR_OK)))
        (example_client 5 LWPB_ERR_OK) example_method two_buffers).trace = []
      ∧ response_handler_calls
        (service_call (example_service (some (example_server LWPB_ERR_OK)))
        (example_client 5 LWPB_ERR_OK) example_method two_buffers).trace = 0
      ∧ released (service_call (example_service (some (example_server LWPB_ERR_OK)))
        (example_client 5 LWPB_ERR_OK) example_method two_buffers).trace = [1000, 2000]
      ∧ (service_call (example_service (some (example_server LWPB_ERR_OK)))
        (example_client 5 LWPB_ERR_OK) example_method two_buffers).ret = 5 :=
  service_call_encoder_error (example_service (some (example_server LWPB_ERR_OK)))
    (example_client 5 LWPB_ERR_OK) example_method two_buffers 5
    ⟨rfl, by decide⟩ ⟨rfl, by decide⟩ rfl (by decide)

/-- C3: with a server bound, when both allocations and the request encoder
succeed and the server call handler returns an error `e`, `service_call`
delivers `FAILED` to the completion callback exactly once, does not invoke the
response decoder, releases the request buffer and the response buffer once each,
and returns `e`. -/
theorem service_call_handler_error (service : lwpb_service_socket_server σ)
    (server : lwpb_server σ) (client : lwpb_client σ) (method_desc : lwpb_method_desc)
    (w : σ) (e : lwpb_err_t)
    (hserver : service.server = some server)
    (hreq : (alloc_req service w).1.succeeded)
    (hres : (alloc_res service w).1.succeeded)
    (henc : (encode service client method_desc w).1.1 = LWPB_ERR_OK)
    (hcall : (invoke service server client method_desc w).1.1 = e)
    (he : e ≠ LWPB_ERR_OK) :
    completions (service_call service client method_desc w).trace = [LWPB_RPC_FAILED]
      ∧ response_handler_calls (service_call service client method_desc w).trace = 0
      ∧ released (service_call service client method_desc w).trace
        = [(alloc_req service w).1.buf, (alloc_res service w).1.buf]
      ∧ (service_call service client method_desc w).ret = e := by
  obtain ⟨h1, h1b⟩ := hreq
  obtain ⟨h2, h2b⟩ := hres
  subst hcall
  simp only [alloc_req, alloc_res, encode, invoke] at h1 h1b h2 h2b henc he ⊢
  simp [service_call, service_call_out, hserver, h1, h1b, h2, h2b, henc, he,
    completions, released, response_handler_calls]

theorem service_call_handler_error_witness :
    completions (service_call (example_service (some (example_server 4)))
        (example_client LWPB_ERR_OK LWPB_ERR_OK) example_method two_buffers).trace
        = [LWPB_RPC_FAILED]
      ∧ response_handler_calls (service_call (example_service (some (example_server 4)))
        (example_client LWPB_ERR_OK LWPB_ERR_OK) example_method two_buffers).trace = 0
      ∧ released (service_call (example_service (some (example_server 4)))
        (example_client LWPB_ERR_OK LWPB_ERR_OK) example_method two_buffers).trace
        = [1000, 2000]
      ∧ (service_call (example_service (some (example_server 4)))
        (example_client LWPB_ERR_OK LWPB_ERR_OK) example_method two_buffers).ret = 4 :=
  service_call_handler_error (example_service (some (example_server 4)))
    (example_server 4) (example_client LWPB_ERR_OK LWPB_ERR_OK) example_method
    two_buffers 4 rfl ⟨rfl, by decide⟩ ⟨rfl, by decide⟩ rfl rfl (by decide)

/-- C4: with a server bound, when both allocations, the request encoder, the
server call handler and the response decoder succeed, the trace of
`service_call` is exactly: allocation of the request buffer, allocation of the
response buffer, encoder, server call handler, response decoder, completion
callback with `OK`, release of the request buffer, release of the response
buffer; no release precedes the completion callback, both follow it; the call
returns `LWPB_ERR_OK`. -/
theorem service_call_success_trace (service : lwpb_service_socket_server σ)
    (server : lwpb_server σ) (client : lwpb_client σ) (method_desc : lwpb_method_desc)
    (w : σ)
    (hserver : service.server = some server)
    (hreq : (alloc_req service w).1.succeeded)
    (hres : (alloc_res service w).1.succeeded)
    (henc : (encode service client method_desc w).1.1 = LWPB_ERR_OK)
    (hcall : (invoke service server client method_desc w).1.1 = LWPB_ERR_OK)
    (hdec : (decode service server client method_desc w).1 = LWPB_ERR_OK) :
    (service_call service client method_desc w).trace
        = [Event.alloc_buf (alloc_req service w).1,
           Event.alloc_buf (alloc_res service w).1,
           Event.request_handler client.addr method_desc method_desc.req_desc
             (alloc_req service w).1.buf (alloc_req service w).1.len client.arg,
           Event.call_handler server.addr method_desc method_desc.req_desc
             (alloc_req service w).1.buf (encode service client method_desc w).1.2
             method_desc.res_desc (alloc_res service w).1.buf
             (alloc_res service w).1.len server.arg,
           Event.response_handler client.addr method_desc method_desc.res_desc
             (alloc_res service w).1.buf
             (invoke service server client method_desc w).1.2 client.arg,
           Event.done_handler client.addr method_desc LWPB_RPC_OK client.arg,
           Event.free_buf (alloc_req service w).1.buf,
           Event.free_buf (alloc_res service w).1.buf]
      ∧ (∃ pre post, (service_call service client method_desc w).trace
            = pre ++ Event.done_handler client.addr method_desc LWPB_RPC_OK client.arg
                :: post
          ∧ released pre = [] ∧ completions pre = [] ∧ completions post = []
          ∧ released post = [(alloc_req service w).1.buf, (alloc_res service w).1.buf])
      ∧ (service_call service client method_desc w).ret = LWPB_ERR_OK := by
  obtain ⟨h1, h1b⟩ := hreq
  obtain ⟨h2, h2b⟩ := hres
  have hret : (service_call service client method_desc w).ret = LWPB_ERR_OK := by
    simp only [alloc_req, alloc_res, encode, invoke, decode] at h1 h1b h2 h2b henc hcall hdec
    simp [service_call, service_call_out, hserver, h1, h1b, h2, h2b, henc, hcall, hdec]
  have htrace : (service_call service client method_desc w).trace
        = [Event.alloc_buf (alloc_req service w).1,
           Event.alloc_buf (alloc_res service w).1,
           Event.request_handler client.addr method_desc method_desc.req_desc
             (alloc_req service w).1.buf (alloc_req service w).1.len client.arg,
           Event.call_handler server.addr method_desc method_desc.req_desc
             (alloc_req service w).1.buf (encode service client method_desc w).1.2
             method_desc.res_desc (alloc_res service w).1.buf
             (alloc_res service w).1.len server.arg,
           Event.response_handler client.addr method_desc method_desc.res_desc
             (alloc_res service w).1.buf
             (invoke service server client method_desc w).1.2 client.arg,
           Event.done_handler client.addr method_desc LWPB_RPC_OK client.arg,
           Event.free_buf (alloc_req service w).1.buf,
           Event.free_buf (alloc_res service w).1.buf] := by
    simp only [alloc_req, alloc_res, encode, invoke, decode] at h1 h1b h2 h2b henc hcall ⊢
    simp [service_call, service_call_out, hserver, h1, h1b, h2, h2b, henc, hcall]
  refine ⟨htrace, ⟨[Event.alloc_buf (alloc_req service w).1,
           Event.alloc_buf (alloc_res service w).1,
           Event.request_handler client.addr method_desc method_desc.req_desc
             (alloc_req service w).1.buf (alloc_req service w).1.len client.arg,
           Event.call_handler server.addr method_desc method_desc.req_desc
             (alloc_req service w).1.buf (encode service client method_desc w).1.2
             method_desc.res_desc (alloc_res service w).1.buf
             (alloc_res service w).1.len server.arg,
           Event.response_handler client.addr method_desc method_desc.res_desc
             (alloc_res service w).1.buf
             (invoke service server client method_desc w).1.2 client.arg],
          [Event.free_buf (alloc_req service w).1.buf,
           Event.free_buf (alloc_res service w).1.buf], ?_, ?_⟩, hret⟩
  · rw [htrace]; rfl
  · simp [released, completions]

theorem service_call_success_trace_witness :
    (service_call (example_service (some (example_server LWPB_ERR_OK)))
        (example_client LWPB_ERR_OK LWPB_ERR_OK) example_method two_buffers).trace
        = [Event.alloc_buf ⟨LWPB_ERR_OK, 1000, 64⟩,
           Event.alloc_buf ⟨LWPB_ERR_OK, 2000, 64⟩,
           Event.request_handler 100 example_method 301 1000 64 7,
           Event.call_handler 200 example_method 301 1000 5 302 2000 64 9,
           Event.response_handler 100 example_method 302 2000 5 7,
           Event.done_handler 100 example_method LWPB_RPC_OK 7,
           Event.free_buf 1000,
           Event.free_buf 2000]
      ∧ (service_call (example_service (some (example_server LWPB_ERR_OK)))
        (example_client LWPB_ERR_OK LWPB_ERR_OK) example_method two_buffers).ret
        = LWPB_ERR_OK :=
  have h := service_call_success_trace
    (example_service (some (example_server LWPB_ERR_OK))) (example_server LWPB_ERR_OK)
    (example_client LWPB_ERR_OK LWPB_ERR_OK) example_method two_buffers
    rfl ⟨rfl, by decide⟩ ⟨rfl, by decide⟩ rfl rfl rfl
  ⟨h.1, h.2.2⟩

/-- C6: when a buffer allocation of `service_call` fails with error `e` (the
first one, or the second one after a successful first one), no further
allocation is attempted, neither the request encoder, nor a server call handler,
nor the response decoder, nor the completion callback is invoked, the request
buffer is released once if it was obtained, nothing else is released, and the
call returns `e`. -/
theorem service_call_alloc_error (service : lwpb_service_socket_server σ)
    (client : lwpb_client σ) (method_desc : lwpb_method_desc) (w : σ) (e : lwpb_err_t)
    (hfail : (alloc_req service w).1.failed e
      ∨ ((alloc_req service w).1.succeeded ∧ (alloc_res service w).1.failed e)) :
    (service_call service client method_desc w).trace
        = (if (alloc_req service w).1.ret = LWPB_ERR_OK then
            [Event.alloc_buf (alloc_req service w).1,
             Event.alloc_buf (alloc_res service w).1,
             Event.free_buf (alloc_req service w).1.buf]
          else [Event.alloc_buf (alloc_req service w).1])
      ∧ request_handler_calls (service_call service client method_desc w).trace = 0
      ∧ call_handler_calls (service_call service client method_desc w).trace = 0
      ∧ response_handler_calls (service_call service client method_desc w).trace = 0
      ∧ completions (service_call service client method_desc w).trace = []
      ∧ released (service_call service client method_desc w).trace
        = (if (alloc_req service w).1.ret = LWPB_ERR_OK then
            [(alloc_req service w).1.buf] else [])
      ∧ (service_call service client method_desc w).ret = e := by
  rcases hfail with ⟨h1, he, h1b⟩ | ⟨⟨h1, h1b⟩, h2, he, h2b⟩
  · subst h1
    simp only [alloc_req, alloc_res] at h1b he ⊢
    simp [service_call, service_call_out, h1b, he, completions, released,
      request_handler_calls, call_handler_calls, response_handler_calls]
  · subst h2
    simp only [alloc_req, alloc_res] at h1 h1b h2b he ⊢
    simp [service_call, service_call_out, h1, h1b, h2b, he, completions, released,
      request_handler_calls, call_handler_calls, response_handler_calls]

theorem service_call_alloc_error_witness :
    (service_call (example_service (some (example_server LWPB_ERR_OK)))
        (example_client LWPB_ERR_OK LWPB_ERR_OK) example_method [1000]).trace
        = [Event.alloc_buf ⟨LWPB_ERR_OK, 1000, 64⟩, Event.alloc_buf ⟨3, NULL, 0⟩,
           Event.free_buf 1000]
      ∧ released (service_call (example_service (some (example_server LWPB_ERR_OK)))
        (example_client LWPB_ERR_OK LWPB_ERR_OK) example_method [1000]).trace = [1000]
      ∧ (service_call (example_service (some (example_server LWPB_ERR_OK)))
        (example_client LWPB_ERR_OK LWPB_ERR_OK) example_method [1000]).ret = 3 :=
  have h := service_call_alloc_error
    (example_service (some (example_server LWPB_ERR_OK)))
    (example_client LWPB_ERR_OK LWPB_ERR_OK) example_method [1000] 3
    (Or.inr ⟨⟨rfl, by decide⟩, rfl, by decide, rfl⟩)
  ⟨h.1, h.2.2.2.2.2.1, h.2.2.2.2.2.2⟩

/-- C7: with a server bound, when both allocations, the request encoder and the
server call handler succeed, `service_call` delivers `OK` to the completion
callback exactly once whatever the response decoder returns, and returns the
value returned by the response decoder. -/
theorem service_call_decoder_result (service : lwpb_service_socket_server σ)
    (server : lwpb_server σ) (client : lwpb_client σ) (method_desc : lwpb_method_desc)
    (w : σ)
    (hserver : service.server = some server)
    (hreq : (alloc_req service w).1.succeeded)
    (hres : (alloc_res service w).1.succeeded)
    (henc : (encode service client method_desc w).1.1 = LWPB_ERR_OK)
    (hcall : (invoke service server client method_desc w).1.1 = LWPB_ERR_OK) :
    completions (service_call service client method_desc w).trace = [LWPB_RPC_OK]
      ∧ response_handler_calls (service_call service client method_desc w).trace = 1
      ∧ (service_call service client method_desc w).ret
        = (decode service server client method_desc w).1 := by
  obtain ⟨h1, h1b⟩ := hreq
  obtain ⟨h2, h2b⟩ := hres
  simp only [alloc_req, alloc_res, encode, invoke, decode] at h1 h1b h2 h2b henc hcall ⊢
  simp [service_call, service_call_out, hserver, h1, h1b, h2, h2b, henc, hcall,
    completions, response_handler_calls]

theorem service_call_decoder_result_witness :
    completions (service_call (example_service (some (example_server LWPB_ERR_OK)))
        (example_client LWPB_ERR_OK 6) example_method two_buffers).trace = [LWPB_RPC_OK]
      ∧ (service_call (example_service (some (example_server LWPB_ERR_OK)))
        (example_client LWPB_ERR_OK 6) example_method two_buffers).ret = 6 :=
  have h := service_call_decoder_result
    (example_service (some (example_server LWPB_ERR_OK))) (example_server LWPB_ERR_OK)
    (example_client LWPB_ERR_OK 6) example_method two_buffers
    rfl ⟨rfl, by decide⟩ ⟨rfl, by decide⟩ rfl rfl
  ⟨h.1, h.2.2⟩

/-! Section: Buffer balance -/

theorem released_append (t u : List Event) : released (t ++ u) = released t ++ released u := by
  induction t with
  | nil => rfl
  | cons ev t ih => cases ev <;> simp [released, ih]

theorem allocated_append (t u : List Event) :
    allocated (t ++ u) = allocated t ++ allocated u := by
  induction t with
  | nil => rfl
  | cons ev t ih =>
    cases ev with
    | alloc_buf out => by_cases h : out.ret = LWPB_ERR_OK <;> simp [allocated, ih, h]
    | _ => simp [allocated, ih]

/-- One call releases exactly the buffers it obtained, in the order in which it
obtained them, when the pool honours its contract. -/
theorem service_call_released_eq_allocated (service : lwpb_service_socket_server σ)
    (client : lwpb_client σ) (method_desc : lwpb_method_desc) (w : σ)
    (hpool : ∀ w1, (service.super.alloc_buf w1).1.wf) :
    released (service_call service client method_desc w).trace
      = allocated (service_call service client method_desc w).trace := by
  have hw1 := hpool w
  have hw2 := hpool (service.super.alloc_buf w).2
  simp only [AllocOutcome.wf] at hw1 hw2
  by_cases h1 : (service.super.alloc_buf w).1.ret = LWPB_ERR_OK
  · have h1b := hw1.mp h1
    by_cases h2 : (service.super.alloc_buf (service.super.alloc_buf w).2).1.ret
        = LWPB_ERR_OK
    · have h2b := hw2.mp h2
      by_cases h3 : (client.request_handler client.addr method_desc method_desc.req_desc
          (service.super.alloc_buf w).1.buf (service.super.alloc_buf w).1.len client.arg
          (service.super.alloc_buf (service.super.alloc_buf w).2).2).1.1 = LWPB_ERR_OK
      · cases hs : service.server with
        | none =>
          simp [service_call, service_call_out, h1, h1b, h2, h2b, h3, hs, released,
            allocated]
        | some server =>
          by_cases h4 : (server.call_handler server.addr method_desc method_desc.req_desc
              (service.super.alloc_buf w).1.buf
              (client.request_handler client.addr method_desc method_desc.req_desc
                (service.super.alloc_buf w).1.buf (service.super.alloc_buf w).1.len
                client.arg (service.super.alloc_buf (service.super.alloc_buf w).2).2).1.2
              method_desc.res_desc
              (service.super.alloc_buf (service.super.alloc_buf w).2).1.buf
              (service.super.alloc_buf (service.super.alloc_buf w).2).1.len server.arg
              (client.request_handler client.addr method_desc method_desc.req_desc
                (service.super.alloc_buf w).1.buf (service.super.alloc_buf w).1.len
                client.arg (service.super.alloc_buf (service.super.alloc_buf w).2).2).2).1.1
              = LWPB_ERR_OK
          · simp [service_call, service_call_out, h1, h1b, h2, h2b, h3, hs, h4, released,
              allocated]
          · simp [service_call, service_call_out, h1, h1b, h2, h2b, h3, hs, h4, released,
              allocated]
      · simp [service_call, service_call_out, h1, h1b, h2, h2b, h3, released, allocated]
    · have h2b : (service.super.alloc_buf (service.super.alloc_buf w).2).1.buf = NULL := by
        by_contra hne; exact h2 (hw2.mpr hne)
      simp [service_call, service_call_out, h1, h1b, h2, h2b, released, allocated]
  · have h1b : (service.super.alloc_buf w).1.buf = NULL := by
      by_contra hne; exact h1 (hw1.mpr hne)
    simp [service_call, service_call_out, h1, h1b, released, allocated]

/-- C5: in every finite sequence of `service_call` invocations on services whose
buffer pool honours its contract, whatever the outcomes of the allocations, of
the request encoder, of the server call handler and of the response decoder and
whether or not a server is bound, every call releases exactly the buffers it
obtained, each once, and over the whole sequence the number of successful
allocations equals the number of releases. -/
theorem service_call_seq_balanced
    (calls : List (lwpb_service_socket_server σ × lwpb_client σ × lwpb_method_desc))
    (w : σ)
    (hpool : ∀ p ∈ calls, ∀ w1, (p.1.super.alloc_buf w1).1.wf) :
    (∀ r ∈ service_call_seq calls w, released r.trace = allocated r.trace)
      ∧ released (seq_trace (service_call_seq calls w))
        = allocated (seq_trace (service_call_seq calls w))
      ∧ (allocated (seq_trace (service_call_seq calls w))).length
        = (released (seq_trace (service_call_seq calls w))).length := by
  induction calls generalizing w with
  | nil => simp [service_call_seq, seq_trace, released, allocated]
  | cons p rest ih =>
    obtain ⟨service, client, method_desc⟩ := p
    have hhead := service_call_released_eq_allocated service client method_desc w
      (hpool (service, client, method_desc) (List.mem_cons_self _ _))
    have htail := ih (service_call service client method_desc w).world
      (fun q hq => hpool q (List.mem_cons_of_mem _ hq))
    have hall : released (seq_trace (service_call_seq
          ((service, client, method_desc) :: rest) w))
        = allocated (seq_trace (service_call_seq
          ((service, client, method_desc) :: rest) w)) := by
      simp only [service_call_seq, seq_trace, released_append, allocated_append, hhead,
        htail.2.1]
    refine ⟨?_, hall, by rw [hall]⟩
    intro r hr
    simp only [service_call_seq, List.mem_cons] at hr
    rcases hr with rfl | hr
    · exact hhead
    · exact htail.1 r hr

theorem script_pool_wf (w : List Ptr) : (script_pool.alloc_buf w).1.wf := by
  cases w with
  | nil => simp [script_pool, AllocOutcome.wf, LWPB_ERR_OK, NULL]
  | cons b rest =>
    by_cases hb : b = NULL
    · simp [script_pool, AllocOutcome.wf, hb, LWPB_ERR_OK]
    · simp [script_pool, AllocOutcome.wf, hb]

theorem service_call_seq_balanced_witness :
    released (seq_trace (service_call_seq example_calls [1000, 2000, 1001, 2001, 1002]))
        = allocated (seq_trace (service_call_seq example_calls
            [1000, 2000, 1001, 2001, 1002]))
      ∧ (allocated (seq_trace (service_call_seq example_calls
            [1000, 2000, 1001, 2001, 1002]))).length
        = (released (seq_trace (service_call_seq example_calls
            [1000, 2000, 1001, 2001, 1002]))).length :=
  (service_call_seq_balanced example_calls [1000, 2000, 1001, 2001, 1002]
    (by
      intro p hp w1
      simp only [example_calls, List.mem_cons, List.mem_singleton, List.not_mem_nil,
        or_false] at hp
      rcases hp with rfl | rfl | rfl <;> exact script_pool_wf w1)).2

/-! Section: Registration and cancellation -/

theorem service_register_client_bound (service : lwpb_service_socket_server σ)
    (c : lwpb_client σ) (c1 : Option (lwpb_client σ)) (h : service.client = some c) :
    service_register_client service c1 = none := by
  simp [service_register_client, LWPB_ASSERT, h]

theorem service_register_server_bound (service : lwpb_service_socket_server σ)
    (s : lwpb_server σ) (s1 : Option (lwpb_server σ)) (h : service.server = some s) :
    service_register_server service s1 = none := by
  simp [service_register_server, LWPB_ASSERT, h]

theorem service_register_client_unbound (service : lwpb_service_socket_server σ)
    (c : Option (lwpb_client σ)) (h : service.client = none) :
    service_register_client service c = some ⟨service.super, c, service.server⟩ := by
  simp [service_register_client, LWPB_ASSERT, h]

theorem service_register_server_unbound (service : lwpb_service_socket_server σ)
    (s : Option (lwpb_server σ)) (h : service.server = none) :
    service_register_server service s = some ⟨service.super, service.client, s⟩ := by
  simp [service_register_server, LWPB_ASSERT, h]

/-- Non-null registrations on any service: the number of completed
`register_client` (`register_server`) requests is at most one, and zero when the
slot is already bound; a bound slot is never changed, an unbound one receives
the first argument. -/
theorem register_seq_nonnull (ops : List (Registration σ))
    (service : lwpb_service_socket_server σ)
    (hnn : ∀ op ∈ ops, op.nonnull = true) :
    (register_seq service ops).1.countP Registration.is_client
        ≤ (if service.client.isSome then 0 else 1)
      ∧ (register_seq service ops).1.countP Registration.is_server
        ≤ (if service.server.isSome then 0 else 1)
      ∧ (register_seq service ops).2.client
        = (if service.client.isSome then service.client else first_client ops)
      ∧ (register_seq service ops).2.server
        = (if service.server.isSome then service.server else first_server ops) := by
  induction ops generalizing service with
  | nil =>
    cases hc : service.client <;> cases hs : service.server <;>
      simp [register_seq, first_client, first_server, hc, hs]
  | cons op rest ih =>
    have hrest : ∀ op ∈ rest, op.nonnull = true :=
      fun q hq => hnn q (List.mem_cons_of_mem _ hq)
    have hop := hnn op (List.mem_cons_self _ _)
    cases op with
    | client c =>
      cases c with
      | none => simp [Registration.nonnull] at hop
      | some c =>
        cases hc : service.client with
        | some c0 =>
          have hreg := service_register_client_bound service c0 (some c) hc
          have h := ih service hrest
          simp only [hc] at h
          simpa [register_seq, register, hreg, hc] using h
        | none =>
          have hreg := service_register_client_unbound service (some c) hc
          have h := ih ⟨service.super, some c, service.server⟩ hrest
          simpa [register_seq, register, hreg, hc, Registration.is_client,
            Registration.is_server, first_client, first_server] using h
    | server sv =>
      cases sv with
      | none => simp [Registration.nonnull] at hop
      | some sv =>
        cases hs : service.server with
        | some s0 =>
          have hreg := service_register_server_bound service s0 (some sv) hs
          have h := ih service hrest
          simp only [hs] at h
          simpa [register_seq, register, hreg, hs] using h
        | none =>
          have hreg := service_register_server_unbound service (some sv) hs
          have h := ih ⟨service.super, service.client, some sv⟩ hrest
          simpa [register_seq, register, hreg, hs, Registration.is_client,
            Registration.is_server, first_client, first_server] using h

/-- C8 (as stated, refuted): on a freshly initialised service the sequence
`register_client(NULL)`, `register_client(c)` completes both registrations
without an assertion failure, so more than one `register_client` completes. -/
theorem register_client_null_then_client :
    ¬ ((register_seq (lwpb_service_socket_server_init id (example_service none))
        [Registration.client none,
         Registration.client (some (example_client LWPB_ERR_OK LWPB_ERR_OK))]).1.countP
        Registration.is_client ≤ 1) := by
  decide

/-- C8 (amended): for every sequence of `register_client` and `register_server`
requests with non-null arguments applied to a freshly initialised service, at
most one `register_client` and at most one `register_server` complete without a
fatal assertion failure; at the end the client slot holds the argument of the
first `register_client` and the server slot the argument of the first
`register_server`, and a further registration completes only if no request of
its kind was made before. -/
theorem register_seq_at_most_once (lwpb_service_init : lwpb_service σ → lwpb_service σ)
    (service : lwpb_service_socket_server σ) (ops : List (Registration σ))
    (c : Option (lwpb_client σ)) (s : Option (lwpb_server σ))
    (hnn : ∀ op ∈ ops, op.nonnull = true) :
    (register_seq (lwpb_service_socket_server_init lwpb_service_init service) ops).1.countP
        Registration.is_client ≤ 1
      ∧ (register_seq (lwpb_service_socket_server_init lwpb_service_init service)
          ops).1.countP Registration.is_server ≤ 1
      ∧ (register_seq (lwpb_service_socket_server_init lwpb_service_init service)
          ops).2.client = first_client ops
      ∧ (register_seq (lwpb_service_socket_server_init lwpb_service_init service)
          ops).2.server = first_server ops
      ∧ (service_register_client
          (register_seq (lwpb_service_socket_server_init lwpb_service_init service) ops).2
          c).isSome = (first_client ops).isNone
      ∧ (service_register_server
          (register_seq (lwpb_service_socket_server_init lwpb_service_init service) ops).2
          s).isSome = (first_server ops).isNone := by
  have h := register_seq_nonnull ops
    (lwpb_service_socket_server_init lwpb_service_init service) hnn
  simp only [lwpb_service_socket_server_init, Option.isSome_none, Bool.false_eq_true,
    if_false] at h ⊢
  refine ⟨h.1, h.2.1, h.2.2.1, h.2.2.2, ?_, ?_⟩
  · cases hf : first_client ops with
    | none =>
      rw [service_register_client_unbound _ c (h.2.2.1.trans hf)]; rfl
    | some c0 =>
      rw [service_register_client_bound _ c0 c (h.2.2.1.trans hf)]; rfl
  · cases hf : first_server ops with
    | none =>
      rw [service_register_server_unbound _ s (h.2.2.2.trans hf)]; rfl
    | some s0 =>
      rw [service_register_server_bound _ s0 s (h.2.2.2.trans hf)]; rfl

theorem register_seq_at_most_once_witness :
    (register_seq (lwpb_service_socket_server_init id
        (example_service (some (example_server 4))))
        [Registration.client (some (example_client LWPB_ERR_OK LWPB_ERR_OK)),
         Registration.server (some (example_server LWPB_ERR_OK)),
         Registration.client (some (example_client 5 6)),
         Registration.server (some (example_server 4))]).1.countP
        Registration.is_client ≤ 1
      ∧ (register_seq (lwpb_service_socket_server_init id
        (example_service (some (example_server 4))))
        [Registration.client (some (example_client LWPB_ERR_OK LWPB_ERR_OK)),
         Registration.server (some (example_server LWPB_ERR_OK)),
         Registration.client (some (example_client 5 6)),
         Registration.server (some (example_server 4))]).1.countP
        Registration.is_server ≤ 1 :=
  have h := register_seq_at_most_once id (example_service (some (example_server 4)))
    [Registration.client (some (example_client LWPB_ERR_OK LWPB_ERR_OK)),
     Registration.server (some (example_server LWPB_ERR_OK)),
     Registration.client (some (example_client 5 6)),
     Registration.server (some (example_server 4))] none none
    (by
      intro op hop
      simp only [List.mem_cons, List.mem_singleton, List.not_mem_nil, or_false] at hop
      rcases hop with rfl | rfl | rfl | rfl <;> rfl)
  ⟨h.1, h.2.1⟩

/-- C9: on a service whose client slot is unbound `register_client` completes,
stores its argument in the client slot and leaves the rest of the structure as
it was; on a service whose server slot is unbound `register_server` completes,
stores its argument in the server slot and leaves the rest as it was.  After
`register_server(service, server)`, a `service_call` whose allocations and
encoder succeed invokes exactly one call handler, with `server` and the context
argument of `server`, and its return value is the one produced by the call
handler of `server` (or by the decoder that follows it). -/
theorem register_then_call (service1 service2 : lwpb_service_socket_server σ)
    (c : Option (lwpb_client σ)) (s : Option (lwpb_server σ)) (server : lwpb_server σ)
    (client : lwpb_client σ) (method_desc : lwpb_method_desc) (w : σ)
    (hclient : service1.client = none)
    (hserver : service2.server = none)
    (hreq : (alloc_req service2 w).1.succeeded)
    (hres : (alloc_res service2 w).1.succeeded)
    (henc : (encode service2 client method_desc w).1.1 = LWPB_ERR_OK) :
    service_register_client service1 c = some ⟨service1.super, c, service1.server⟩
      ∧ service_register_server service2 s = some ⟨service2.super, service2.client, s⟩
      ∧ ∃ registered, service_register_server service2 (some server) = some registered
        ∧ call_handler_events (service_call registered client method_desc w).trace
          = [Event.call_handler server.addr method_desc method_desc.req_desc
              (alloc_req service2 w).1.buf (encode service2 client method_desc w).1.2
              method_desc.res_desc (alloc_res service2 w).1.buf
              (alloc_res service2 w).1.len server.arg]
        ∧ (service_call registered client method_desc w).ret
          = (if (invoke service2 server client method_desc w).1.1 = LWPB_ERR_OK then
              (decode service2 server client method_desc w).1
            else (invoke service2 server client method_desc w).1.1) := by
  refine ⟨service_register_client_unbound service1 c hclient,
    service_register_server_unbound service2 s hserver,
    ⟨service2.super, service2.client, some server⟩,
    service_register_server_unbound service2 (some server) hserver, ?_⟩
  obtain ⟨h1, h1b⟩ := hreq
  obtain ⟨h2, h2b⟩ := hres
  simp only [alloc_req, alloc_res, encode, invoke, decode] at h1 h1b h2 h2b henc ⊢
  by_cases h4 : (server.call_handler server.addr method_desc method_desc.req_desc
      (service2.super.alloc_buf w).1.buf
      (client.request_handler client.addr method_desc method_desc.req_desc
        (service2.super.alloc_buf w).1.buf (service2.super.alloc_buf w).1.len
        client.arg (service2.super.alloc_buf (service2.super.alloc_buf w).2).2).1.2
      method_desc.res_desc
      (service2.super.alloc_buf (service2.super.alloc_buf w).2).1.buf
      (service2.super.alloc_buf (service2.super.alloc_buf w).2).1.len server.arg
      (client.request_handler client.addr method_desc method_desc.req_desc
        (service2.super.alloc_buf w).1.buf (service2.super.alloc_buf w).1.len
        client.arg (service2.super.alloc_buf (service2.super.alloc_buf w).2).2).2).1.1
      = LWPB_ERR_OK
  · simp [service_call, service_call_out, h1, h1b, h2, h2b, henc, h4,
      call_handler_events]
  · simp [service_call, service_call_out, h1, h1b, h2, h2b, henc, h4,
      call_handler_events]

theorem register_then_call_witness :
    ∃ registered, service_register_server (example_service none)
          (some (example_server LWPB_ERR_OK)) = some registered
        ∧ call_handler_events (service_call registered
            (example_client LWPB_ERR_OK 6) example_method two_buffers).trace
          = [Event.call_handler 200 example_method 301 1000 5 302 2000 64 9]
        ∧ (service_call registered (example_client LWPB_ERR_OK 6) example_method
            two_buffers).ret = 6 :=
  (register_then_call (example_service none) (example_service none) none none
    (example_server LWPB_ERR_OK) (example_client LWPB_ERR_OK 6) example_method
    two_buffers rfl rfl ⟨rfl, by decide⟩ ⟨rfl, by decide⟩ rfl).2.2

/-- C10: `service_cancel` is a no-op: for every service and client it makes no
external call (no client callback, no server call handler, no allocation, no
release), and leaves the service structure, in particular its client and server
slots, and the world as they were. -/
theorem service_cancel_noop (service : lwpb_service_socket_server σ)
    (client : lwpb_client σ) (w : σ) :
    (service_cancel service client w).1 = []
      ∧ (service_cancel service client w).2.1.client = service.client
      ∧ (service_cancel service client w).2.1.server = service.server
      ∧ (service_cancel service client w).2.1.super = service.super
      ∧ (service_cancel service client w).2.2 = w :=
  ⟨rfl, rfl, rfl, rfl, rfl⟩

/-! Section: Transport binder -/

/-- C11 (behaviour of the code at the failing input): when the resolver fails,
`lwpb_service_socket_server_bind` logs the resolver error and reaches the end of
the function without a `return` statement: no status, hence no transport error,
is returned.  The service structure is left as it was. -/
theorem bind_resolution_failure_returns_nothing :
    (lwpb_service_socket_server_bind failing_resolver (example_service none)
        (some ['n', 'o', 'w', 'h', 'e', 'r', 'e']) 8080).ret = none
      ∧ (lwpb_service_socket_server_bind failing_resolver (example_service none)
        (some ['n', 'o', 'w', 'h', 'e', 'r', 'e']) 8080).events
        = [BindEvent.getaddrinfo (some ['n', 'o', 'w', 'h', 'e', 'r', 'e'])
            ['8', '0', '8', '0'] ⟨AddrFamily.AF_UNSPEC, SockType.SOCK_STREAM, true⟩,
           BindEvent.LWPB_ERR (-2)]
      ∧ (lwpb_service_socket_server_bind failing_resolver (example_service none)
        (some ['n', 'o', 'w', 'h', 'e', 'r', 'e']) 8080).service.server.isNone = true
      ∧ (lwpb_service_socket_server_bind failing_resolver (example_service none)
        (some ['n', 'o', 'w', 'h', 'e', 'r', 'e']) 8080).service.client.isNone = true := by
  decide

/-- C12 (behaviour of the code at the failing input): when the resolver succeeds
with two candidates, `getaddrinfo` is the only external call of
`lwpb_service_socket_server_bind`: no candidate is tried, nothing is stored in
the service, and the end of the function is reached without a `return`
statement, so success is not returned either. -/
theorem bind_stops_after_resolution :
    (lwpb_service_socket_server_bind two_candidate_resolver (example_service none)
        none 8080).events
        = [BindEvent.getaddrinfo none ['8', '0', '8', '0']
            ⟨AddrFamily.AF_UNSPEC, SockType.SOCK_STREAM, true⟩]
      ∧ (lwpb_service_socket_server_bind two_candidate_resolver (example_service none)
        none 8080).ret = none
      ∧ (lwpb_service_socket_server_bind two_candidate_resolver (example_service none)
        none 8080).ret ≠ some LWPB_ERR_OK := by
  decide

/-- On every input `lwpb_service_socket_server_bind` ends without a `return`
statement and hands back the service structure it was given. -/
theorem bind_never_returns_a_status
    (getaddrinfo : Option (List Char) → List Char → addrinfo_hints → Int × List Nat)
    (service : lwpb_service_socket_server σ) (host : Option (List Char)) (port : Nat) :
    (lwpb_service_socket_server_bind getaddrinfo service host port).ret = none
      ∧ (lwpb_service_socket_server_bind getaddrinfo service host port).service
        = service := by
  dsimp only [lwpb_service_socket_server_bind]
  split_ifs <;> exact ⟨rfl, rfl⟩

/-! Section: Completion status and return value -/

/-- C15: `service_call` invokes the completion callback at most once; exactly
once if and only if both allocations and the request encoder return
`LWPB_ERR_OK`; the status delivered is `NOT_CONNECTED` exactly when no server is
bound, `FAILED` exactly when a server is bound and its call handler returns an
error, `OK` exactly when a server is bound and its call handler returns
`LWPB_ERR_OK`. -/
theorem service_call_completion (service : lwpb_service_socket_server σ)
    (client : lwpb_client σ) (method_desc : lwpb_method_desc) (w : σ) :
    (completions (service_call service client method_desc w).trace).length ≤ 1
      ∧ ((completions (service_call service client method_desc w).trace).length = 1
        ↔ ((alloc_req service w).1.ret = LWPB_ERR_OK
          ∧ (alloc_res service w).1.ret = LWPB_ERR_OK
          ∧ (encode service client method_desc w).1.1 = LWPB_ERR_OK))
      ∧ (completions (service_call service client method_desc w).trace
          = [LWPB_RPC_NOT_CONNECTED]
        ↔ ((alloc_req service w).1.ret = LWPB_ERR_OK
          ∧ (alloc_res service w).1.ret = LWPB_ERR_OK
          ∧ (encode service client method_desc w).1.1 = LWPB_ERR_OK
          ∧ service.server = none))
      ∧ (completions (service_call service client method_desc w).trace
          = [LWPB_RPC_FAILED]
        ↔ ((alloc_req service w).1.ret = LWPB_ERR_OK
          ∧ (alloc_res service w).1.ret = LWPB_ERR_OK
          ∧ (encode service client method_desc w).1.1 = LWPB_ERR_OK
          ∧ ∃ server, service.server = some server
            ∧ (invoke service server client method_desc w).1.1 ≠ LWPB_ERR_OK))
      ∧ (completions (service_call service client method_desc w).trace
          = [LWPB_RPC_OK]
        ↔ ((alloc_req service w).1.ret = LWPB_ERR_OK
          ∧ (alloc_res service w).1.ret = LWPB_ERR_OK
          ∧ (encode service client method_desc w).1.1 = LWPB_ERR_OK
          ∧ ∃ server, service.server = some server
            ∧ (invoke service server client method_desc w).1.1 = LWPB_ERR_OK)) := by
  simp only [alloc_req, alloc_res, encode, invoke]
  by_cases h1 : (service.super.alloc_buf w).1.ret = LWPB_ERR_OK <;>
  by_cases h1b : (service.super.alloc_buf w).1.buf = NULL <;>
  by_cases h2 : (service.super.alloc_buf (service.super.alloc_buf w).2).1.ret
      = LWPB_ERR_OK <;>
  by_cases h2b : (service.super.alloc_buf (service.super.alloc_buf w).2).1.buf = NULL <;>
  by_cases h3 : (client.request_handler client.addr method_desc method_desc.req_desc
      (service.super.alloc_buf w).1.buf (service.super.alloc_buf w).1.len client.arg
      (service.super.alloc_buf (service.super.alloc_buf w).2).2).1.1 = LWPB_ERR_OK <;>
  cases hs : service.server <;>
  simp [service_call, service_call_out, h1, h1b, h2, h2b, h3, hs, completions] <;>
  split_ifs <;> simp_all [completions]

/-- C16: the return value of `service_call` is the status of the first failing
step among request allocation, response allocation, encoder, server call
handler and response decoder (the last two exist only when a server is bound),
and `LWPB_ERR_OK` when none fails; it is `LWPB_ERR_OK` if and only if both
allocations and the encoder return `LWPB_ERR_OK` and either no server is bound or
the call handler and the decoder both return `LWPB_ERR_OK`; the steps executed
are the steps up to and including the first failing one, in program order, and
no later one. -/
theorem service_call_first_failure (service : lwpb_service_socket_server σ)
    (client : lwpb_client σ) (method_desc : lwpb_method_desc) (w : σ) :
    (service_call service client method_desc w).ret
        = first_failure (step_results service client method_desc w)
      ∧ ((service_call service client method_desc w).ret = LWPB_ERR_OK
        ↔ ((alloc_req service w).1.ret = LWPB_ERR_OK
          ∧ (alloc_res service w).1.ret = LWPB_ERR_OK
          ∧ (encode service client method_desc w).1.1 = LWPB_ERR_OK
          ∧ (service.server = none
            ∨ ∃ server, service.server = some server
              ∧ (invoke service server client method_desc w).1.1 = LWPB_ERR_OK
              ∧ (decode service server client method_desc w).1 = LWPB_ERR_OK)))
      ∧ steps_of_trace (service_call service client method_desc w).trace
        = (step_order service).take
            (steps_run (step_results service client method_desc w)) := by
  simp only [alloc_req, alloc_res, encode, invoke, decode, step_results, step_order]
  by_cases h1 : (service.super.alloc_buf w).1.ret = LWPB_ERR_OK <;>
  by_cases h1b : (service.super.alloc_buf w).1.buf = NULL <;>
  by_cases h2 : (service.super.alloc_buf (service.super.alloc_buf w).2).1.ret
      = LWPB_ERR_OK <;>
  by_cases h2b : (service.super.alloc_buf (service.super.alloc_buf w).2).1.buf = NULL <;>
  by_cases h3 : (client.request_handler client.addr method_desc method_desc.req_desc
      (service.super.alloc_buf w).1.buf (service.super.alloc_buf w).1.len client.arg
      (service.super.alloc_buf (service.super.alloc_buf w).2).2).1.1 = LWPB_ERR_OK <;>
  cases hs : service.server <;>
  simp [service_call, service_call_out, h1, h1b, h2, h2b, h3, hs, first_failure,
    steps_run, steps_of_trace, step_of_event] <;>
  split_ifs <;> simp_all [first_failure, steps_run, steps_of_trace, step_of_event]

/-- The trace left by the label `out:`: the events so far, then the release
of the request buffer and of the response buffer, each when it is not `NULL`. -/
theorem service_call_out_trace (service : lwpb_service_socket_server σ)
    (ret : lwpb_err_t) (trace : List Event) (req_buf res_buf : Ptr) (w : σ) :
    (service_call_out service ret trace req_buf res_buf w).trace
      = trace ++ ((if req_buf ≠ NULL then [Event.free_buf req_buf] else [])
          ++ (if res_buf ≠ NULL then [Event.free_buf res_buf] else [])) := by
  simp only [service_call_out]
  split_ifs <;> simp

theorem all_to_client_frees (addr arg req_buf res_buf : Ptr) :
    ((if req_buf ≠ NULL then [Event.free_buf req_buf] else [])
      ++ (if res_buf ≠ NULL then [Event.free_buf res_buf] else [])).all
        (Event.to_client addr arg) = true := by
  split_ifs <;> simp [Event.to_client]

/-- C17: `service_call` does not depend on the client slot of the service and
does not change the service: two services that differ only in the client slot
give, for the same client, method and world, the same trace, return value and
final world; every client callback in the trace is invoked on the client passed
as argument, with the context value of that client; the service structure after
the call, in particular its client and server slots, is the one before the
call. -/
theorem service_call_ignores_client_slot (super : lwpb_service σ)
    (slot1 slot2 : Option (lwpb_client σ)) (server : Option (lwpb_server σ))
    (client : lwpb_client σ) (method_desc : lwpb_method_desc) (w : σ) :
    (service_call ⟨super, slot1, server⟩ client method_desc w).trace
        = (service_call ⟨super, slot2, server⟩ client method_desc w).trace
      ∧ (service_call ⟨super, slot1, server⟩ client method_desc w).ret
        = (service_call ⟨super, slot2, server⟩ client method_desc w).ret
      ∧ (service_call ⟨super, slot1, server⟩ client method_desc w).world
        = (service_call ⟨super, slot2, server⟩ client method_desc w).world
      ∧ (service_call ⟨super, slot1, server⟩ client method_desc w).trace.all
          (Event.to_client client.addr client.arg) = true
      ∧ (service_call ⟨super, slot1, server⟩ client method_desc w).service.client = slot1
      ∧ (service_call ⟨super, slot1, server⟩ client method_desc w).service.server
        = server := by
  have hservice : ∀ service : lwpb_service_socket_server σ,
      (service_call service client method_desc w).service = service := by
    intro service
    simp only [service_call]
    cases service.server <;> simp only [] <;> split_ifs <;> rfl
  refine ⟨?_, ?_, ?_, ?_, by rw [hservice], by rw [hservice]⟩
  · cases server <;> simp only [service_call] <;> split_ifs <;> rfl
  · cases server <;> simp only [service_call] <;> split_ifs <;> rfl
  · cases server <;> simp only [service_call] <;> split_ifs <;> rfl
  · cases server <;> simp only [service_call] <;> split_ifs <;>
      simp only [service_call_out_trace, List.all_append, all_to_client_frees,
        Bool.and_true] <;>
      simp [Event.to_client]

/-! Section: Data flow -/

/-- C13: a request frame `[method id][len][payload]` whose method id is known and
whose payload is no longer than the maximum message size, handled on a service
whose bound server echoes its input, produces the response frame
`[OK][len][payload]`, with the same length and the same payload bytes, when the
two buffers can be allocated. -/
theorem connection_echo_round_trip (mem : BufferAccess σ)
    (method_table : Nat → Option lwpb_method_desc) (max_message_size : Nat)
    (service : lwpb_service_socket_server σ) (addr arg : Ptr)
    (method_desc : lwpb_method_desc) (method_id : Nat) (payload : List Nat) (w : σ)
    (hmem : ∀ buf bytes w1, mem.load buf bytes.length (mem.store buf bytes w1) = bytes)
    (hserver : service.server = some (echo_server mem addr arg))
    (hmethod : method_table method_id = some method_desc)
    (hlen : payload.length ≤ max_message_size)
    (hreq : (alloc_req service w).1.succeeded)
    (hres : (alloc_res service w).1.succeeded) :
    (connection_handle_frame mem method_table max_message_size service
        ⟨method_id, payload.length, payload⟩ w).1
      = FrameOutcome.response ⟨LWPB_RPC_OK, payload.length, payload⟩ := by
  obtain ⟨h1, _⟩ := hreq
  obtain ⟨h2, _⟩ := hres
  simp only [alloc_req, alloc_res] at h1 h2
  simp [connection_handle_frame, hmethod, h1, h2, hserver,
    Nat.not_lt.mpr hlen, echo_server, hmem]

theorem connection_echo_round_trip_witness :
    (connection_handle_frame frame_memory example_method_table 64
        ⟨frame_pool, none, some (echo_server frame_memory 200 9)⟩
        ⟨7, 3, [97, 98, 99]⟩ ([1000, 2000], fun _ => [])).1
      = FrameOutcome.response ⟨LWPB_RPC_OK, 3, [97, 98, 99]⟩ :=
  connection_echo_round_trip frame_memory example_method_table 64
    ⟨frame_pool, none, some (echo_server frame_memory 200 9)⟩ 200 9 example_method 7
    [97, 98, 99] ([1000, 2000], fun _ => [])
    (by intro buf bytes w1; simp [frame_memory])
    rfl rfl (by decide) ⟨rfl, by decide⟩ ⟨rfl, by decide⟩

/-! Section: Initialisation -/

/-- C18: `lwpb_service_socket_server_init` leaves the client slot and the server
slot unbound whatever the structure held before; after it one `register_client`
followed by one `register_server` both complete, and so do they in the other
order, the slots then holding the two arguments; a `service_call` made after
the initialisation, or after a `register_client` that follows it, and before any
`register_server`, delivers `NOT_CONNECTED` to the completion callback exactly
once and returns `LWPB_ERR_OK` when its allocations and its encoder succeed. -/
theorem init_unbound (lwpb_service_init : lwpb_service σ → lwpb_service σ)
    (service : lwpb_service_socket_server σ)
    (c : Option (lwpb_client σ)) (s : Option (lwpb_server σ))
    (client : lwpb_client σ) (method_desc : lwpb_method_desc) (w : σ)
    (hreq : (alloc_req (lwpb_service_socket_server_init lwpb_service_init service) w).1.succeeded)
    (hres : (alloc_res (lwpb_service_socket_server_init lwpb_service_init service) w).1.succeeded)
    (henc : (encode (lwpb_service_socket_server_init lwpb_service_init service) client
      method_desc w).1.1 = LWPB_ERR_OK) :
    (lwpb_service_socket_server_init lwpb_service_init service).client.isNone = true
      ∧ (lwpb_service_socket_server_init lwpb_service_init service).server.isNone = true
      ∧ (∃ s1 s2,
          service_register_client
            (lwpb_service_socket_server_init lwpb_service_init service) c = some s1
          ∧ service_register_server s1 s = some s2
          ∧ s2.client = c ∧ s2.server = s)
      ∧ (∃ s1 s2,
          service_register_server
            (lwpb_service_socket_server_init lwpb_service_init service) s = some s1
          ∧ service_register_client s1 c = some s2
          ∧ s2.client = c ∧ s2.server = s)
      ∧ completions (service_call
          (lwpb_service_socket_server_init lwpb_service_init service) client
          method_desc w).trace = [LWPB_RPC_NOT_CONNECTED]
      ∧ (service_call (lwpb_service_socket_server_init lwpb_service_init service) client
          method_desc w).ret = LWPB_ERR_OK
      ∧ (∃ s1,
          service_register_client
            (lwpb_service_socket_server_init lwpb_service_init service) c = some s1
          ∧ completions (service_call s1 client method_desc w).trace
            = [LWPB_RPC_NOT_CONNECTED]
          ∧ (service_call s1 client method_desc w).ret = LWPB_ERR_OK) := by
  obtain ⟨h1, h1b⟩ := hreq
  obtain ⟨h2, h2b⟩ := hres
  simp only [alloc_req, alloc_res, encode, lwpb_service_socket_server_init]
    at h1 h1b h2 h2b henc
  refine ⟨rfl, rfl,
    ⟨⟨lwpb_service_init service.super, c, none⟩,
      ⟨lwpb_service_init service.super, c, s⟩, rfl, rfl, rfl, rfl⟩,
    ⟨⟨lwpb_service_init service.super, none, s⟩,
      ⟨lwpb_service_init service.super, c, s⟩, rfl, rfl, rfl, rfl⟩,
    ?_, ?_,
    ⟨⟨lwpb_service_init service.super, c, none⟩, rfl, ?_, ?_⟩⟩ <;>
  simp [service_call, service_call_out, lwpb_service_socket_server_init, h1, h1b, h2,
    h2b, henc, completions]

theorem init_unbound_witness :
    (lwpb_service_socket_server_init id
        (example_service (some (example_server 4)))).server.isNone = true
      ∧ completions (service_call
          (lwpb_service_socket_server_init id (example_service (some (example_server 4))))
          (example_client LWPB_ERR_OK LWPB_ERR_OK) example_method two_buffers).trace
        = [LWPB_RPC_NOT_CONNECTED] :=
  have h := init_unbound id (example_service (some (example_server 4)))
    (some (example_client LWPB_ERR_OK LWPB_ERR_OK)) (some (example_server LWPB_ERR_OK))
    (example_client LWPB_ERR_OK LWPB_ERR_OK) example_method two_buffers
    ⟨rfl, by decide⟩ ⟨rfl, by decide⟩ rfl
  ⟨h.2.1, h.2.2.2.2.1⟩

end Call

end Lwpb
